import Mathlib

/-!
Verification of `src/12.py`, a single-file Streamlit dashboard that fetches
seismic-event records from a public API, cleans them, and renders four charts.

Shallow embedding conventions:
* A pandas DataFrame is a `List` of rows; column presence (pandas checks
  `'lat' in df.columns` etc.) is recorded table-wide by the `has…` flags.
* Raw JSON cell values are `RawCell`: a numeric value, a non-numeric string
  (`bad`, which `pd.to_numeric`/`pd.to_datetime` with `errors='coerce'`
  turn into NaN/NaT, modelled `none`), or a JSON null (`null`, which is NA
  for `dropna` even without conversion).
* Machine floats are modelled by `ℚ`; timestamps by `ℚ` counting days
  (`timedelta(days=30)` is `30`).
* The random sources `np.random.uniform` / `np.random.randint` are modelled
  by explicit functions from the row index, constrained in theorem
  hypotheses exactly by those functions' documented ranges (`uniform(lo,hi)`
  yields values in `[lo, hi)`; `randint(0, 30)` yields integers in `[0, 30)`).
* `Fecha.dt.strftime('%Y-%m-%d %H:%M:%S')` formats timestamps for display;
  lexicographic order on that fixed-width format agrees with chronological
  order, so the later `sort_values('Fecha')` is modelled as a sort on the
  underlying time value, with NaT last (`na_position='last'` default).
-/

/-- A raw JSON cell: a numeric value, a non-numeric string, or a null. -/
inductive RawCell where
  | num (q : ℚ)
  | bad
  | null
deriving DecidableEq, Repr

/-- One record of the API response (`datos_sismos` entry). -/
structure RawRow where
  lat : RawCell
  lon : RawCell
  magnitud : RawCell
  fecha : RawCell
  refGeografica : String
deriving DecidableEq, Repr

/-- The parsed API body as a DataFrame (`df_sismos = pd.DataFrame(datos_sismos)`):
rows plus which of the optional columns are present. -/
structure RawTable where
  hasLat : Bool
  hasLon : Bool
  hasFecha : Bool
  rows : List RawRow
deriving DecidableEq, Repr

/-- `pd.to_numeric(col, errors='coerce')` on one cell: non-numeric and null
cells become NaN (`none`). Source line 47. -/
def to_numeric : RawCell → Option ℚ
  | .num q => some q
  | .bad => none
  | .null => none

/-- `pd.to_datetime(col, errors='coerce')` on one cell: unparseable and null
cells become NaT (`none`). Source line 55. -/
def to_datetime : RawCell → Option ℚ
  | .num q => some q
  | .bad => none
  | .null => none

/-- NA-ness of an unconverted cell (what `dropna` sees for the renamed
`lat`/`lon` columns, which undergo no numeric conversion): only null is NA. -/
def cellNA : RawCell → Option RawCell
  | .null => none
  | v => some v

/-- The random draws of one script run: `np.random.uniform(lat_min, lat_max)`
and `np.random.uniform(lon_min, lon_max)` per row (lines 40-41), and
`np.random.randint(0, 30)` per row (line 53), indexed by row position. -/
structure NpRandom where
  lat : ℕ → ℚ
  lon : ℕ → ℚ
  day : ℕ → ℕ

/-- Chile bounding box, line 36: `lat_min, lat_max = -55.0, -17.5`. -/
def lat_min : ℚ := -55
/-- Chile bounding box, line 36. -/
def lat_max : ℚ := -(35 / 2 : ℚ)
/-- Chile bounding box, line 37: `lon_min, lon_max = -75.0, -66.0`. -/
def lon_min : ℚ := -75
/-- Chile bounding box, line 37. -/
def lon_max : ℚ := -66

/-- A record after the cleaning step (lines 32-58). -/
structure CleanRow where
  latitud : Option RawCell
  longitud : Option RawCell
  magnitud : Option ℚ
  fecha : Option ℚ
  refGeografica : String
deriving DecidableEq, Repr

/-- Cleaning of one record at row index `i` (lines 32-58):
if either coordinate column is absent, both `Latitud` and `Longitud` are
fresh uniform draws (lines 40-41); otherwise the existing columns are merely
renamed (line 44). `Magnitud` is numeric-coerced (line 47). If the date
column is absent, `Fecha` is `now - 30 days + randint(0,30) days` (lines
52-53); otherwise it is datetime-coerced (line 55). -/
def limpiarRow (t : RawTable) (rng : NpRandom) (now : ℚ) (i : ℕ) (r : RawRow) : CleanRow :=
  { latitud := if t.hasLat && t.hasLon then cellNA r.lat else some (.num (rng.lat i))
    longitud := if t.hasLat && t.hasLon then cellNA r.lon else some (.num (rng.lon i))
    magnitud := to_numeric r.magnitud
    fecha := if t.hasFecha then to_datetime r.fecha
             else some (now - 30 + (rng.day i : ℚ))
    refGeografica := r.refGeografica }

/-- Cleaning of a row list starting at index `i`. -/
def limpiarRows (t : RawTable) (rng : NpRandom) (now : ℚ) : ℕ → List RawRow → List CleanRow
  | _, [] => []
  | i, r :: rs => limpiarRow t rng now i r :: limpiarRows t rng now (i + 1) rs

/-- The cleaned `df_sismos` (state of the table after line 58). -/
def limpiar (t : RawTable) (rng : NpRandom) (now : ℚ) : List CleanRow :=
  limpiarRows t rng now 0 t.rows

/-- The boolean mask `df_sismos['Magnitud'] >= magnitud_min` (line 70):
a NaN magnitude compares `False` against every threshold. -/
def pasaFiltro (m : ℚ) (r : CleanRow) : Bool :=
  match r.magnitud with
  | some q => decide (m ≤ q)
  | none => false

/-- Lines 70 and 73: select rows with `Magnitud >= magnitud_min`, then
`dropna(subset=['Latitud', 'Longitud'])`. -/
def sismos_filtrados (df : List CleanRow) (m : ℚ) : List CleanRow :=
  (df.filter (pasaFiltro m)).filter (fun r => r.latitud.isSome && r.longitud.isSome)

/-- The arguments of a `st.slider` call: `st.slider(label, min, max, value)`. -/
structure Slider where
  minValue : ℚ
  maxValue : ℚ
  value : ℚ
deriving DecidableEq, Repr

/-- Line 69: `st.slider('Selecciona una magnitud mínima …', 0.0, 10.0, 4.0)`. -/
def magnitud_min_slider : Slider := ⟨0, 10, 4⟩

/-- Comparison used by `sort_values('Fecha')`: chronological, NaT last. -/
def fechaLE (a b : CleanRow) : Bool :=
  match a.fecha, b.fecha with
  | some x, some y => decide (x ≤ y)
  | some _, none => true
  | none, some _ => false
  | none, none => true

/-- Line 116: `df_sismos.sort_values('Fecha', inplace=True)` — a sort by
date, mutating `df_sismos` (the relative order of equal dates is not fixed
by pandas' default quicksort; insertion sort is one admissible order). -/
def sort_values_Fecha (df : List CleanRow) : List CleanRow :=
  List.insertionSort (fun a b => fechaLE a b = true) df

/-- Line 111: `df_sismos['Magnitud'].dropna().value_counts().sort_index()` —
each distinct magnitude, in ascending order, with its frequency. -/
def value_counts_sort_index (qs : List ℚ) : List (ℚ × ℕ) :=
  (List.insertionSort (fun a b => a ≤ b) qs.dedup).map (fun q => (q, qs.count q))

/-- pandas `mean()` with default `skipna`: NaN when the group is empty. -/
def mean (qs : List ℚ) : Option ℚ :=
  if qs.isEmpty then none else some (qs.sum / qs.length)

/-- Line 117: `df_sismos.groupby('Fecha')['Magnitud'].mean()` — NaN keys are
dropped by `groupby`, keys come out sorted, each mapped to the mean of the
non-NaN magnitudes of its group. -/
def groupby_Fecha_mean (df : List CleanRow) : List (ℚ × Option ℚ) :=
  (List.insertionSort (fun a b => a ≤ b) (df.filterMap CleanRow.fecha).dedup).map
    (fun d => (d, mean ((df.filter (fun r => decide (r.fecha = some d))).filterMap
      CleanRow.magnitud)))

/-- Lines 122-126: the scatter DataFrame — `Longitud`, `Latitud`, and
`Magnitud * 10` of each row of `df_sismos`. -/
def scatter_data (df : List CleanRow) : List (Option RawCell × Option RawCell × Option ℚ) :=
  df.map (fun r => (r.longitud, r.latitud, r.magnitud.map (fun q => q * 10)))

/-- What the four charts are built from, and the table's final state
(lines 75-127). -/
structure RenderOutput where
  deckData : List CleanRow
  barData : List (ℚ × ℕ)
  lineData : List (ℚ × Option ℚ)
  scatterData : List (Option RawCell × Option RawCell × Option ℚ)
  dfFinal : List CleanRow
deriving DecidableEq, Repr

/-- The rendering steps for a cleaned table `df` and slider value `m`
(lines 69-127, in source order): the 3D `ColumnLayer` gets
`sismos_filtrados` (line 81); the bar chart gets the magnitude counts of
`df_sismos` (line 111); line 116 then sorts `df_sismos` in place; the line
chart gets the per-date means of the (now sorted) `df_sismos` (line 117);
the scatter chart gets the coordinates and scaled magnitudes of the (sorted)
`df_sismos` (lines 122-127). -/
def render (df : List CleanRow) (m : ℚ) : RenderOutput :=
  let filtrados := sismos_filtrados df m
  let barD := value_counts_sort_index (df.filterMap CleanRow.magnitud)
  let dfSorted := sort_values_Fecha df
  { deckData := filtrados
    barData := barD
    lineData := groupby_Fecha_mean dfSorted
    scatterData := scatter_data dfSorted
    dfFinal := dfSorted }

/-- The HTTP response of `requests.get(URL)` (line 21). -/
structure Response where
  status_code : ℕ
  body : RawTable

/-- Observable outcome of one script execution: the URLs fetched by
`requests.get`, whether `st.error` ran (line 146), and the render outputs
(present only on the 200 branch). -/
structure ScriptRun where
  httpGets : List String
  errorShown : Bool
  rendered : Option RenderOutput

/-- Line 20. -/
def URL : String := "https://api.gael.cloud/general/public/sismos"

/-- The whole script (lines 20-146): one unconditional `requests.get(URL)`
(line 21); on `status_code == 200` the parse/clean/render pipeline runs; on
any other status only `st.error` runs (lines 145-146). -/
def script (resp : Response) (rng : NpRandom) (now : ℚ) (m : ℚ) : ScriptRun :=
  if resp.status_code = 200 then
    { httpGets := [URL]
      errorShown := false
      rendered := some (render (limpiar resp.body rng now) m) }
  else
    { httpGets := [URL]
      errorShown := true
      rendered := none }

/-- Replace every row's raw coordinate cells (used to state that cleaning
ignores them when a coordinate column is missing). -/
def setCoords (t : RawTable) (f g : RawRow → RawCell) : RawTable :=
  { t with rows := t.rows.map (fun r => { r with lat := f r, lon := g r }) }

/-! ### Helper lemmas -/

theorem mem_limpiarRows {t : RawTable} {rng : NpRandom} {now : ℚ} :
    ∀ {i : ℕ} {rows : List RawRow} {c : CleanRow}, c ∈ limpiarRows t rng now i rows →
      ∃ j r, r ∈ rows ∧ c = limpiarRow t rng now j r := by
  intro i rows
  induction rows generalizing i with
  | nil => intro c h; simp [limpiarRows] at h
  | cons r rs ih =>
      intro c h
      simp only [limpiarRows, List.mem_cons] at h
      rcases h with h | h
      · exact ⟨i, r, List.mem_cons_self r rs, h⟩
      · rcases ih h with ⟨j, r2, hr2, hc⟩
        exact ⟨j, r2, List.mem_cons_of_mem _ hr2, hc⟩

theorem mem_limpiar {t : RawTable} {rng : NpRandom} {now : ℚ} {c : CleanRow}
    (h : c ∈ limpiar t rng now) :
    ∃ j r, r ∈ t.rows ∧ c = limpiarRow t rng now j r :=
  mem_limpiarRows h

theorem pasaFiltro_iff {m : ℚ} {r : CleanRow} :
    pasaFiltro m r = true ↔ ∃ q, r.magnitud = some q ∧ m ≤ q := by
  cases h : r.magnitud <;> simp [pasaFiltro, h]

/-! ### Concrete inputs used in witnesses and counterexamples -/

/-- A concrete random source: `uniform` draws `-30` / `-70`, `randint` draws `7`. -/
def rngW : NpRandom := ⟨fun _ => -30, fun _ => -70, fun _ => 7⟩

/-- A concrete raw record. -/
def rW : RawRow := ⟨.null, .null, .num 5, .null, "X"⟩

/-- A response body missing the `lat` column. -/
def tW3 : RawTable := ⟨false, true, true, [rW]⟩

/-- A response body missing the `Fecha` column. -/
def tW4 : RawTable := ⟨true, true, false, [rW]⟩

/-- A raw record with an unparseable magnitude. -/
def rBad : RawRow := ⟨.num 1, .num 2, .bad, .num 3, "X"⟩

/-- A full-columned response body containing `rBad`. -/
def tW9 : RawTable := ⟨true, true, true, [rBad]⟩

/-- A 200 response with full columns and two records, one above and one
below the default threshold `4.0`. -/
def respC1 : Response :=
  ⟨200, ⟨true, true, true, [⟨.num (-30), .num (-70), .num 5, .num 1, "A"⟩,
    ⟨.num (-33), .num (-71), .num 1, .num 2, "B"⟩]⟩⟩

/-- Both coordinate columns present, but the record's `lat` value is null,
so it survives cleaning with no latitude. -/
def tC2 : RawTable := ⟨true, true, true, [⟨.null, .num (-70), .num 5, .num 1, "A"⟩]⟩

/-- A 200 response whose two records arrive in reverse date order, so the
line-chart step's in-place sort reorders the table. -/
def respC6 : Response :=
  ⟨200, ⟨true, true, true, [⟨.num (-30), .num (-70), .num 5, .num 2, "A"⟩,
    ⟨.num (-33), .num (-71), .num 6, .num 1, "B"⟩]⟩⟩

/-! ### Claims -/

/-- C3: when the fetched data lacks latitude/longitude columns, every cleaned
record carries a synthesized coordinate pair drawn inside Chile's bounding
box: latitude in `[-55.0, -17.5]`, longitude in `[-75.0, -66.0]`. The
hypotheses on `rng` are the range contract of `np.random.uniform(lo, hi)`. -/
theorem C3_synthesized_coords_in_chile_box (t : RawTable) (rng : NpRandom) (now : ℚ)
    (hcols : ¬(t.hasLat = true ∧ t.hasLon = true))
    (hlat : ∀ i, lat_min ≤ rng.lat i ∧ rng.lat i < lat_max)
    (hlon : ∀ i, lon_min ≤ rng.lon i ∧ rng.lon i < lon_max)
    (c : CleanRow) (hc : c ∈ limpiar t rng now) :
    (∃ q, c.latitud = some (RawCell.num q) ∧ -55 ≤ q ∧ q ≤ -(35 / 2 : ℚ)) ∧
    (∃ q, c.longitud = some (RawCell.num q) ∧ -75 ≤ q ∧ q ≤ -66) := by
  rcases mem_limpiar hc with ⟨j, r, -, rfl⟩
  have hb : (t.hasLat && t.hasLon) = false := by
    cases hL : t.hasLat <;> cases hLo : t.hasLon <;> simp_all
  have h1 := hlat j
  have h2 := hlon j
  simp only [lat_min, lat_max, lon_min, lon_max] at h1 h2
  refine ⟨⟨rng.lat j, ?_, h1.1, le_of_lt h1.2⟩, ⟨rng.lon j, ?_, h2.1, le_of_lt h2.2⟩⟩ <;>
    simp [limpiarRow, hb]

theorem C3_witness :
    ¬(tW3.hasLat = true ∧ tW3.hasLon = true) ∧
    (∃ q, CleanRow.latitud (limpiarRow tW3 rngW 0 0 rW) = some (RawCell.num q) ∧
        -55 ≤ q ∧ q ≤ -(35 / 2 : ℚ)) := by
  refine ⟨by simp [tW3], ?_⟩
  have h := C3_synthesized_coords_in_chile_box tW3 rngW 0
    (by simp [tW3])
    (by intro i; refine ⟨?_, ?_⟩ <;> simp [rngW, lat_min, lat_max] <;> norm_num)
    (by intro i; refine ⟨?_, ?_⟩ <;> simp [rngW, lon_min, lon_max] <;> norm_num)
    (limpiarRow tW3 rngW 0 0 rW)
    (by simp [tW3, limpiar, limpiarRows])
  exact h.1

/-- C4: when the fetched data lacks a date column, every cleaned record's
timestamp equals `(now - 30 days) + k days` for a random whole-day offset
`k` drawn by `np.random.randint(0, 30)`, hence lies between 30 days ago and
now. The hypothesis on `rng.day` is the range contract of `randint(0, 30)`. -/
theorem C4_imputed_dates_in_last_30_days (t : RawTable) (rng : NpRandom) (now : ℚ)
    (hf : t.hasFecha = false) (hday : ∀ i, rng.day i < 30)
    (c : CleanRow) (hc : c ∈ limpiar t rng now) :
    ∃ k : ℕ, c.fecha = some (now - 30 + (k : ℚ)) ∧
      now - 30 ≤ now - 30 + (k : ℚ) ∧ now - 30 + (k : ℚ) ≤ now := by
  rcases mem_limpiar hc with ⟨j, r, -, rfl⟩
  refine ⟨rng.day j, by simp [limpiarRow, hf], ?_, ?_⟩
  · have h0 : (0 : ℚ) ≤ (rng.day j : ℚ) := Nat.cast_nonneg _
    linarith
  · have h29 : (rng.day j : ℚ) ≤ 29 := by
      exact_mod_cast Nat.le_of_lt_succ (hday j)
    linarith

theorem C4_witness :
    ∃ k : ℕ, CleanRow.fecha (limpiarRow tW4 rngW 100 0 rW) = some (100 - 30 + (k : ℚ)) ∧
      100 - 30 ≤ 100 - 30 + (k : ℚ) ∧ 100 - 30 + (k : ℚ) ≤ 100 :=
  C4_imputed_dates_in_last_30_days tW4 rngW 100
    rfl (by intro i; simp [rngW]) _ (by simp [tW4, limpiar, limpiarRows])

/-- C5: the threshold filter keeps exactly the cleaned records whose
magnitude is present and `≥` the threshold and whose latitude and longitude
are both non-missing; the slider offering the threshold ranges over
`0.0 … 10.0` with default `4.0`. -/
theorem C5_filter_characterization (df : List CleanRow) (m : ℚ) (r : CleanRow) :
    (r ∈ sismos_filtrados df m ↔
      r ∈ df ∧ (∃ q, r.magnitud = some q ∧ m ≤ q) ∧
        r.latitud.isSome = true ∧ r.longitud.isSome = true) ∧
    magnitud_min_slider.minValue = 0 ∧ magnitud_min_slider.maxValue = 10 ∧
    magnitud_min_slider.value = 4 := by
  refine ⟨?_, rfl, rfl, rfl⟩
  simp only [sismos_filtrados, List.mem_filter, Bool.and_eq_true, pasaFiltro_iff]
  tauto

/-- C8: every execution performs exactly one HTTP GET, to the fixed URL
`https://api.gael.cloud/general/public/sismos`, regardless of the response
status. -/
theorem C8_single_get_fixed_url (resp : Response) (rng : NpRandom) (now m : ℚ) :
    (script resp rng now m).httpGets = [URL] ∧
    URL = "https://api.gael.cloud/general/public/sismos" := by
  refine ⟨?_, rfl⟩
  unfold script
  split <;> rfl

/-- C7: the only error branch is the flat status-code check — on any
non-200 status the script shows the error message and none of the
parse/clean/statistics/filter/render pipeline runs (no render output
exists); on status 200 the error message is never shown. -/
theorem C7_flat_status_check (resp : Response) (rng : NpRandom) (now m : ℚ) :
    (resp.status_code ≠ 200 →
      (script resp rng now m).errorShown = true ∧
      (script resp rng now m).rendered = none) ∧
    (resp.status_code = 200 →
      (script resp rng now m).errorShown = false ∧
      ∃ out, (script resp rng now m).rendered = some out) := by
  constructor
  · intro h; simp [script, h]
  · intro h; simp [script, h]

theorem C7_witness :
    (script ⟨404, tW4⟩ rngW 0 4).errorShown = true ∧
    (script ⟨200, tW4⟩ rngW 0 4).errorShown = false :=
  ⟨((C7_flat_status_check ⟨404, tW4⟩ rngW 0 4).1 (by norm_num)).1,
   ((C7_flat_status_check ⟨200, tW4⟩ rngW 0 4).2 rfl).1⟩

theorem magnitud_none_not_mem_filtrados {df : List CleanRow} {m : ℚ} {r : CleanRow}
    (h : r.magnitud = none) : r ∉ sismos_filtrados df m := by
  intro hmem
  have h1 := (List.mem_filter.mp (List.mem_filter.mp hmem).1).2
  rw [pasaFiltro_iff] at h1
  rcases h1 with ⟨q, hq, -⟩
  rw [h] at hq
  cases hq

/-- C9: a record whose raw magnitude fails numeric parsing is coerced to a
missing magnitude by the cleaning step, and a missing magnitude never passes
the `>=` filter, so the record is excluded from the filtered table for every
threshold — including the slider minimum `0.0`. -/
theorem C9_unparseable_magnitude_excluded (t : RawTable) (rng : NpRandom) (now m : ℚ)
    (i : ℕ) (r : RawRow) (_hmem : r ∈ t.rows) (hbad : r.magnitud = RawCell.bad) :
    (limpiarRow t rng now i r).magnitud = none ∧
    limpiarRow t rng now i r ∉ sismos_filtrados (limpiar t rng now) m := by
  have hnone : (limpiarRow t rng now i r).magnitud = none := by
    simp [limpiarRow, hbad, to_numeric]
  exact ⟨hnone, magnitud_none_not_mem_filtrados hnone⟩

theorem C9_witness :
    rBad ∈ tW9.rows ∧ rBad.magnitud = RawCell.bad ∧
    (limpiarRow tW9 rngW 0 0 rBad).magnitud = none ∧
    limpiarRow tW9 rngW 0 0 rBad ∉ sismos_filtrados (limpiar tW9 rngW 0) 0 := by
  refine ⟨by simp [tW9], rfl, ?_⟩
  exact C9_unparseable_magnitude_excluded tW9 rngW 0 0 0 rBad (by simp [tW9]) rfl

/-- C10: when exactly one of the two coordinate columns is present, the
script takes the missing-coordinates branch: both `Latitud` and `Longitud`
are fresh random draws for every record, and the cleaned table does not
depend on the raw coordinate values at all (rewriting them changes nothing),
so the real values of the present column are never used. -/
theorem C10_one_coord_column_ignored (t : RawTable) (rng : NpRandom) (now : ℚ)
    (f g : RawRow → RawCell)
    (hone : (t.hasLat = true ∧ t.hasLon = false) ∨
      (t.hasLat = false ∧ t.hasLon = true)) :
    (∀ i r, (limpiarRow t rng now i r).latitud = some (RawCell.num (rng.lat i)) ∧
        (limpiarRow t rng now i r).longitud = some (RawCell.num (rng.lon i))) ∧
    limpiar (setCoords t f g) rng now = limpiar t rng now := by
  have hb : (t.hasLat && t.hasLon) = false := by
    rcases hone with ⟨h1, h2⟩ | ⟨h1, h2⟩ <;> simp [h1, h2]
  constructor
  · intro i r
    constructor <;> simp [limpiarRow, hb]
  · have key : ∀ (i : ℕ) (rows : List RawRow),
        limpiarRows (setCoords t f g) rng now i
            (rows.map (fun r => { r with lat := f r, lon := g r })) =
          limpiarRows t rng now i rows := by
      intro i rows
      induction rows generalizing i with
      | nil => rfl
      | cons r rs ih =>
          simp only [List.map_cons, limpiarRows, ih]
          simp [limpiarRow, setCoords, hb]
    simpa [limpiar, setCoords] using key 0 t.rows

theorem C10_witness :
    ((tW3.hasLat = true ∧ tW3.hasLon = false) ∨
      (tW3.hasLat = false ∧ tW3.hasLon = true)) ∧
    (limpiarRow tW3 rngW 0 0 rW).latitud = some (RawCell.num (rngW.lat 0)) ∧
    limpiar (setCoords tW3 (fun _ => .num 9) (fun _ => .num 9)) rngW 0 =
      limpiar tW3 rngW 0 := by
  have h := C10_one_coord_column_ignored tW3 rngW 0 (fun _ => .num 9) (fun _ => .num 9)
    (Or.inr ⟨rfl, rfl⟩)
  exact ⟨Or.inr ⟨rfl, rfl⟩, (h.1 0 rW).1, h.2⟩

/-- C1 is false on the code: on this 200 response the scatter chart's data
has one point per record of the full cleaned table (two points, one of them
below the threshold `4.0`), while the threshold-filtered table has a single
record — so the scatter chart is not rendered from the filtered table. -/
theorem C1_counterexample :
    respC1.status_code = 200 ∧
    Option.map (fun o => o.scatterData.length) (script respC1 rngW 0 4).rendered =
      some 2 ∧
    (scatter_data (sort_values_Fecha
      (sismos_filtrados (limpiar respC1.body rngW 0) 4))).length = 1 ∧
    (sismos_filtrados (limpiar respC1.body rngW 0) 4).length = 1 ∧
    Option.map (fun o => o.scatterData.length) (script respC1 rngW 0 4).rendered ≠
      some ((scatter_data (sort_values_Fecha
        (sismos_filtrados (limpiar respC1.body rngW 0) 4))).length) := by
  refine ⟨rfl, ?_, ?_, ?_, ?_⟩ <;> decide

/-- C1 corrected: on every 200 response, only the 3D column map is rendered
from the threshold-filtered table; the magnitude-frequency bar chart, the
magnitude-over-time line chart and the location scatter chart are rendered
from the full cleaned (unfiltered) table. -/
theorem C1_amended_only_map_from_filtered (resp : Response) (rng : NpRandom)
    (now m : ℚ) (out : RenderOutput) (h200 : resp.status_code = 200)
    (hout : (script resp rng now m).rendered = some out) :
    out.deckData = sismos_filtrados (limpiar resp.body rng now) m ∧
    out.barData =
      value_counts_sort_index ((limpiar resp.body rng now).filterMap CleanRow.magnitud) ∧
    out.lineData = groupby_Fecha_mean (sort_values_Fecha (limpiar resp.body rng now)) ∧
    out.scatterData = scatter_data (sort_values_Fecha (limpiar resp.body rng now)) := by
  have h : some (render (limpiar resp.body rng now) m) = some out := by
    rw [← hout]
    simp [script, h200]
  injection h with h
  subst h
  exact ⟨rfl, rfl, rfl, rfl⟩

theorem C1_amended_witness :
    respC1.status_code = 200 ∧
    RenderOutput.deckData (render (limpiar respC1.body rngW 0) 4) =
      sismos_filtrados (limpiar respC1.body rngW 0) 4 :=
  ⟨rfl, (C1_amended_only_map_from_filtered respC1 rngW 0 4 _ rfl rfl).1⟩

/-- C2 is false on the code: when both coordinate columns are present they
are only renamed, never imputed, so a record whose raw `lat` value is null
survives cleaning with no latitude — the invariant "no record lacks a
coordinate pair after cleaning, for every API response shape" fails. -/
theorem C2_counterexample :
    ¬(∀ c ∈ limpiar tC2 rngW 0,
        c.latitud.isSome = true ∧ c.longitud.isSome = true ∧ c.fecha.isSome = true) := by
  decide

/-- C2 corrected: after cleaning, every record's magnitude is numeric or
missing; whenever a coordinate column is absent every record gets a
synthesized numeric coordinate pair, but when both columns are present the
coordinates are the response's own values and are missing exactly when the
raw value is null; whenever the date column is absent every timestamp is
defaulted, but when it is present a timestamp is missing exactly when the
raw value fails datetime parsing. -/
theorem C2_amended_cleaning_invariant (t : RawTable) (rng : NpRandom) (now : ℚ)
    (c : CleanRow) (hc : c ∈ limpiar t rng now) :
    (c.magnitud = none ∨ ∃ q, c.magnitud = some q) ∧
    ((t.hasLat && t.hasLon) = false →
      (∃ a, c.latitud = some (RawCell.num a)) ∧
        ∃ b, c.longitud = some (RawCell.num b)) ∧
    (t.hasFecha = false → ∃ d, c.fecha = some d) ∧
    ∃ j r, r ∈ t.rows ∧ c = limpiarRow t rng now j r ∧
      ((t.hasLat && t.hasLon) = true →
        (c.latitud = none ↔ r.lat = RawCell.null) ∧
        (c.longitud = none ↔ r.lon = RawCell.null)) ∧
      (t.hasFecha = true → (c.fecha = none ↔ to_datetime r.fecha = none)) := by
  rcases mem_limpiar hc with ⟨j, r, hr, rfl⟩
  refine ⟨?_, ?_, ?_, j, r, hr, rfl, ?_, ?_⟩
  · cases h : (limpiarRow t rng now j r).magnitud
    · exact Or.inl rfl
    · exact Or.inr ⟨_, rfl⟩
  · intro hb
    exact ⟨⟨rng.lat j, by simp [limpiarRow, hb]⟩, ⟨rng.lon j, by simp [limpiarRow, hb]⟩⟩
  · intro hf
    exact ⟨now - 30 + (rng.day j : ℚ), by simp [limpiarRow, hf]⟩
  · intro hb
    constructor
    · simp only [limpiarRow, hb, if_true]
      cases r.lat <;> simp [cellNA]
    · simp only [limpiarRow, hb, if_true]
      cases r.lon <;> simp [cellNA]
  · intro hf
    simp [limpiarRow, hf]

theorem C2_amended_witness :
    limpiarRow tW3 rngW 0 0 rW ∈ limpiar tW3 rngW 0 ∧
    ((tW3.hasLat && tW3.hasLon) = false →
      (∃ a, (limpiarRow tW3 rngW 0 0 rW).latitud = some (RawCell.num a)) ∧
        ∃ b, (limpiarRow tW3 rngW 0 0 rW).longitud = some (RawCell.num b)) := by
  have hm : limpiarRow tW3 rngW 0 0 rW ∈ limpiar tW3 rngW 0 := by
    simp [tW3, limpiar, limpiarRows]
  exact ⟨hm, (C2_amended_cleaning_invariant tW3 rngW 0 _ hm).2.1⟩

/-- C6 is false on the code: the line-chart step runs
`df_sismos.sort_values('Fecha', inplace=True)` during rendering, so on this
200 response (whose records arrive in reverse date order) the table at
process exit is reordered and differs from the cleaned table that entered
the rendering steps. -/
theorem C6_counterexample :
    respC6.status_code = 200 ∧
    Option.map RenderOutput.dfFinal (script respC6 rngW 0 4).rendered ≠
      some (limpiar respC6.body rngW 0) := by
  refine ⟨rfl, ?_⟩
  decide

/-- C6 corrected: the rendering steps mutate the table exactly once — the
line-chart step sorts it by date in place — so the table at process exit is
the cleaned table sorted by `Fecha`: a permutation of it (no record is
rewritten, added or dropped, but their order changes). -/
theorem C6_amended_sorted_permutation (resp : Response) (rng : NpRandom)
    (now m : ℚ) (out : RenderOutput) (h200 : resp.status_code = 200)
    (hout : (script resp rng now m).rendered = some out) :
    out.dfFinal = sort_values_Fecha (limpiar resp.body rng now) ∧
    out.dfFinal.Perm (limpiar resp.body rng now) := by
  have h : some (render (limpiar resp.body rng now) m) = some out := by
    rw [← hout]
    simp [script, h200]
  injection h with h
  subst h
  exact ⟨rfl, List.perm_insertionSort _ _⟩

theorem C6_amended_witness :
    respC6.status_code = 200 ∧
    (RenderOutput.dfFinal (render (limpiar respC6.body rngW 0) 4)).Perm
      (limpiar respC6.body rngW 0) :=
  ⟨rfl, (C6_amended_sorted_permutation respC6 rngW 0 4 _ rfl rfl).2⟩
